import Mathlib

/-- A JavaScript `number` as used by the scraper: an exact rational or one
of the special values `NaN`, `Infinity`, `-Infinity`. -/
inductive JSNum where
  | nan : JSNum
  | posInf : JSNum
  | negInf : JSNum
  | num : Rat → JSNum
deriving DecidableEq

/-- JavaScript `+` on numbers (the cases of `JSNum`). -/
def JSNum.add : JSNum → JSNum → JSNum
  | .nan, _ => .nan
  | _, .nan => .nan
  | .posInf, .negInf => .nan
  | .negInf, .posInf => .nan
  | .posInf, _ => .posInf
  | _, .posInf => .posInf
  | .negInf, _ => .negInf
  | _, .negInf => .negInf
  | .num a, .num b => .num (a + b)

/-- JavaScript `*` on numbers. -/
def JSNum.mul : JSNum → JSNum → JSNum
  | .nan, _ => .nan
  | _, .nan => .nan
  | .posInf, .posInf => .posInf
  | .posInf, .negInf => .negInf
  | .negInf, .posInf => .negInf
  | .negInf, .negInf => .posInf
  | .posInf, .num b => if b = 0 then .nan else if b < 0 then .negInf else .posInf
  | .num a, .posInf => if a = 0 then .nan else if a < 0 then .negInf else .posInf
  | .negInf, .num b => if b = 0 then .nan else if b < 0 then .posInf else .negInf
  | .num a, .negInf => if a = 0 then .nan else if a < 0 then .posInf else .negInf
  | .num a, .num b => .num (a * b)

/-- JavaScript `/` on numbers: `0 / 0 = NaN`, `a / 0 = ±Infinity` for
`a ≠ 0` (the sign of `-0` is not modelled, as no negative numerator
reaches a zero denominator in this program). -/
def JSNum.div : JSNum → JSNum → JSNum
  | .nan, _ => .nan
  | _, .nan => .nan
  | .posInf, .posInf => .nan
  | .posInf, .negInf => .nan
  | .negInf, .posInf => .nan
  | .negInf, .negInf => .nan
  | .posInf, .num b => if b < 0 then .negInf else .posInf
  | .negInf, .num b => if b < 0 then .posInf else .negInf
  | .num _, .posInf => .num 0
  | .num _, .negInf => .num 0
  | .num a, .num b =>
    if b = 0 then (if a = 0 then .nan else if a < 0 then .negInf else .posInf)
    else .num (a / b)

/-- JavaScript `x || 0`: `NaN` (and `0` itself) collapse to `0`, every
other value passes through.  This is the guard the scraper appends to its
averages and percentages. -/
def JSNum.or0 : JSNum → JSNum
  | .nan => .num 0
  | .posInf => .posInf
  | .negInf => .negInf
  | .num a => .num a

/-- JavaScript `s.startsWith(p)`, computed on the character list. -/
def jsStartsWith (s p : String) : Bool :=
  p.toList.isPrefixOf s.toList

/-- JavaScript `s.trim()`: strip whitespace from both ends. -/
def jsTrim (s : String) : String :=
  (((s.toList.dropWhile Char.isWhitespace).reverse.dropWhile Char.isWhitespace).reverse).asString

/-- JavaScript `s.split(".")`: split on every occurrence of the dot
(a string with no dot yields the one-element list `[s]`). -/
def jsSplitDot (s : String) : List String :=
  (s.toList.splitOn '.').map List.asString

/-- `TimeInfo` from `src/server/src/util/dates.ts`: an elapsed duration
broken into floored units. -/
structure TimeInfo where
  seconds : Int
  minutes : Int
  hours : Int
  days : Int
  months : Int
  years : Int
deriving DecidableEq

/-- `SellerStats` from `src/server/src/scrapers/SellerScraper.ts`, as the
numerically populated record handed to `rateSeller`.  Field order matches
the interface declaration (and the insertion order of the object literal,
with the optional `timeSinceCreation` set last). -/
structure SellerStats where
  activeItems : Rat
  soldItems : Rat
  cheapItemsPercentage : Rat
  averageImageCount : Rat
  averageDescriptionLength : Rat
  acceptReturnsPercentage : Rat
  sellerPaysReturnsPercentage : Rat
  freePostagePercentage : Rat
  feedbackCount : Rat
  positiveFeedbackPercentage : Rat
  duplicateFeedbackPercentage : Rat
  timeSinceCreation : Option TimeInfo
deriving DecidableEq

/-- `SellerFlag` from `src/server/src/sellerRater.ts`. -/
inductive SellerFlag where
  | LowActiveItems
  | LowSoldItems
  | HighCheapItems
  | LowImages
  | ShortDescriptions
  | LowReturns
  | LowReturnPayment
  | LowFreePostage
  | LowFeedbackCount
  | PoorFeedback
  | HighDuplicateFeedback
  | NewAccount
deriving DecidableEq

/-- The keys of `SellerStats` (plus `timeSinceCreation`), as iterated by
`Object.entries` in `rateSeller`. -/
inductive FactorKey where
  | activeItems
  | soldItems
  | cheapItemsPercentage
  | averageImageCount
  | averageDescriptionLength
  | acceptReturnsPercentage
  | sellerPaysReturnsPercentage
  | freePostagePercentage
  | feedbackCount
  | positiveFeedbackPercentage
  | duplicateFeedbackPercentage
  | timeSinceCreation
deriving DecidableEq

/-- `FactorMeta` from `sellerRater.ts`: a weight and a ceiling per factor. -/
structure FactorMeta where
  weight : Rat
  max : Rat

/-- The `factorValues` table from `sellerRater.ts`. -/
def factorValues : FactorKey → FactorMeta
  | .activeItems => ⟨1, 60⟩
  | .soldItems => ⟨8, 1000⟩
  | .cheapItemsPercentage => ⟨-3, 100⟩
  | .averageImageCount => ⟨2, 7⟩
  | .averageDescriptionLength => ⟨1, 100⟩
  | .acceptReturnsPercentage => ⟨10, 100⟩
  | .sellerPaysReturnsPercentage => ⟨3, 100⟩
  | .freePostagePercentage => ⟨3, 100⟩
  | .feedbackCount => ⟨20, 100⟩
  | .positiveFeedbackPercentage => ⟨10, 100⟩
  | .duplicateFeedbackPercentage => ⟨-10, 100⟩
  | .timeSinceCreation => ⟨7, 365 * 2⟩

/-- The `factorFlags` table from `sellerRater.ts`. -/
def factorFlags : FactorKey → SellerFlag
  | .activeItems => .LowActiveItems
  | .soldItems => .LowSoldItems
  | .cheapItemsPercentage => .HighCheapItems
  | .averageImageCount => .LowImages
  | .averageDescriptionLength => .ShortDescriptions
  | .acceptReturnsPercentage => .LowReturns
  | .sellerPaysReturnsPercentage => .LowReturnPayment
  | .freePostagePercentage => .LowFreePostage
  | .feedbackCount => .LowFeedbackCount
  | .positiveFeedbackPercentage => .PoorFeedback
  | .duplicateFeedbackPercentage => .HighDuplicateFeedback
  | .timeSinceCreation => .NewAccount

/-- Modelled from the spec: the `clamp` helper imported from
`src/server/src/util/math.ts` is not among the provided sources; the spec
describes it as bounding a value into `[lo, hi]`
(`clamp(positiveScore - negativeScore, 0, 100)`). -/
def clamp (value lo hi : Rat) : Rat :=
  if value < lo then lo else if hi < value then hi else value

/-- `Object.entries(sellerStats)` as consumed by `rateSeller`: the eleven
always-present numeric fields in declaration order, followed by the
optional `timeSinceCreation` (already converted to its `days` count, as
the `forEach` body does). -/
def statsEntries (sellerStats : SellerStats) : List (FactorKey × Rat) :=
  [(FactorKey.activeItems, sellerStats.activeItems),
   (FactorKey.soldItems, sellerStats.soldItems),
   (FactorKey.cheapItemsPercentage, sellerStats.cheapItemsPercentage),
   (FactorKey.averageImageCount, sellerStats.averageImageCount),
   (FactorKey.averageDescriptionLength, sellerStats.averageDescriptionLength),
   (FactorKey.acceptReturnsPercentage, sellerStats.acceptReturnsPercentage),
   (FactorKey.sellerPaysReturnsPercentage, sellerStats.sellerPaysReturnsPercentage),
   (FactorKey.freePostagePercentage, sellerStats.freePostagePercentage),
   (FactorKey.feedbackCount, sellerStats.feedbackCount),
   (FactorKey.positiveFeedbackPercentage, sellerStats.positiveFeedbackPercentage),
   (FactorKey.duplicateFeedbackPercentage, sellerStats.duplicateFeedbackPercentage)]
  ++ (match sellerStats.timeSinceCreation with
      | none => []
      | some t => [(FactorKey.timeSinceCreation, (t.days : Rat))])

/-- The accumulator of `rateSeller`'s `forEach` loop. -/
structure RateState where
  totalPositiveWeightedScore : Rat
  totalNegativeWeightedScore : Rat
  maximumPositiveScore : Rat
  minimumNegativeScore : Rat
  flags : List SellerFlag

/-- Initial accumulator of `rateSeller`. -/
def initRateState : RateState :=
  ⟨0, 0, 0, 0, []⟩

/-- One iteration of the `statsEntries.forEach` body of `rateSeller`. -/
def processFactor (s : RateState) (entry : FactorKey × Rat) : RateState :=
  let factorMeta := factorValues entry.1
  let normalizedValue := entry.2 / factorMeta.max
  let normalizedValueAsPercent := normalizedValue * 100
  if factorMeta.weight > 0 then
    let weightedValue := clamp (normalizedValue * factorMeta.weight) 0 factorMeta.weight
    { s with
      totalPositiveWeightedScore := s.totalPositiveWeightedScore + weightedValue
      maximumPositiveScore := s.maximumPositiveScore + factorMeta.weight
      flags :=
        if normalizedValueAsPercent < 20 then s.flags ++ [factorFlags entry.1] else s.flags }
  else
    let weightedValue := clamp (normalizedValue * factorMeta.weight) factorMeta.weight 0
    { s with
      totalNegativeWeightedScore := s.totalNegativeWeightedScore + weightedValue
      minimumNegativeScore := s.minimumNegativeScore + factorMeta.weight
      flags :=
        if (entry.1 = FactorKey.duplicateFeedbackPercentage ∧ normalizedValueAsPercent > 10)
            ∨ normalizedValueAsPercent > 65 then
          s.flags ++ [factorFlags entry.1]
        else s.flags }

/-- The accumulator state after `rateSeller`'s loop has run. -/
def rateState (sellerStats : SellerStats) : RateState :=
  (statsEntries sellerStats).foldl processFactor initRateState

/-- `rateSeller` from `src/server/src/sellerRater.ts`. -/
def rateSeller (sellerStats : SellerStats) : Rat × List SellerFlag :=
  let s := rateState sellerStats
  let normalizedPositiveScore := s.totalPositiveWeightedScore / s.maximumPositiveScore * 100
  let normalizedNegativeScore := s.totalNegativeWeightedScore / s.minimumNegativeScore * 100
  let normalizedScore := clamp (normalizedPositiveScore - normalizedNegativeScore) 0 100
  (normalizedScore, s.flags)

/-- `PostageDetails` from `SellerScraper.ts`. -/
structure PostageDetails where
  allowsPostage : Bool
  isFree : Bool
deriving DecidableEq

/-- `ReturnDetails` from `SellerScraper.ts`. -/
structure ReturnDetails where
  returnAllowed : Bool
  sellerPays : Bool
deriving DecidableEq

/-- `CHEAP_ITEM_CRITERIA` from `SellerScraper.ts`. -/
def CHEAP_ITEM_CRITERIA : Rat := 10

/-- The observable content of one loaded listing page, as the four
per-item extractors read it.  `none` models a missing element
(`undefined` in the source): a missing description iframe/element/text, a
missing shipping-cost element, a missing returns element. -/
structure ItemPage where
  imageCount : Nat
  descriptionLength : Option Nat
  postageText : Option String
  returnsText : Option String
deriving DecidableEq

/-- `getItemImageCount`: the number of carousel image elements. -/
def getItemImageCount (itemPage : ItemPage) : Nat :=
  itemPage.imageCount

/-- `getItemDescriptionLength`: the character length of the description
document, or `undefined` (here `NaN` once used in arithmetic) when the
iframe, the `#ds_div` element or its text is missing. -/
def getItemDescriptionLength (itemPage : ItemPage) : JSNum :=
  match itemPage.descriptionLength with
  | none => JSNum.nan
  | some n => JSNum.num n

/-- `getPostageDetails`: `{false, false}` when the shipping-price element
is absent, otherwise `allowsPostage = true` and `isFree` iff the text
starts with `"Free"`. -/
def getPostageDetails (postageText : Option String) : PostageDetails :=
  match postageText with
  | none => { allowsPostage := false, isFree := false }
  | some priceText => { allowsPostage := true, isFree := jsStartsWith priceText "Free" }

/-- `getReturnDetails`: the source checks `returnInfo?.startsWith("No")`,
then computes `returnInfo?.split(".")[1].trim().startsWith("Seller")`.
When the returns element is absent (`returnInfo` undefined) both optional
chains short-circuit and the function returns
`{returnAllowed: true, sellerPays: false}`.  When the text is present,
does not start with `"No"` and contains no `"."`, the `[1]` index is
`undefined` and `.trim()` throws a `TypeError` — modelled as `none`. -/
def getReturnDetails (returnInfo : Option String) : Option ReturnDetails :=
  match returnInfo with
  | none => some { returnAllowed := true, sellerPays := false }
  | some text =>
    if jsStartsWith text "No" then some { returnAllowed := false, sellerPays := false }
    else
      match (jsSplitDot text)[1]? with
      | none => none
      | some second =>
        some { returnAllowed := true, sellerPays := jsStartsWith (jsTrim second) "Seller" }

/-- `getCheapItemsPercentage`: drop the honeypot price element, count the
prices at or below `CHEAP_ITEM_CRITERIA`, and compute
`(cheapPriceCount / priceCount) * 100` — with no `|| 0` guard, so an
empty price list yields `(0 / 0) * 100 = NaN`. -/
def getCheapItemsPercentage (itemPriceElements : List Rat) : JSNum :=
  let itemPrices := itemPriceElements.drop 1
  let priceCount := itemPrices.length
  let cheapPriceCount := (itemPrices.filter (fun p => p ≤ CHEAP_ITEM_CRITERIA)).length
  ((JSNum.num cheapPriceCount).div (JSNum.num priceCount)).mul (JSNum.num 100)

/-- The local accumulators of `browseItemDetails`.  The description total
is a `JSNum` because adding an `undefined` description length turns it
into `NaN`. -/
structure BrowseAcc where
  totalImageCount : Nat
  totalDescriptionLength : JSNum
  allowPostageCount : Nat
  freePostageCount : Nat
  acceptReturnsCount : Nat
  sellerPaysReturnPostageCount : Nat
deriving DecidableEq

/-- The `for` loop of `browseItemDetails` over the (post-honeypot) listing
links.  A `none` link is a listing whose navigation failed: it is skipped
(`continue`).  A `TypeError` escaping `getReturnDetails` aborts the whole
function — modelled as `none`. -/
def browseLoop : List (Option ItemPage) → BrowseAcc → Option BrowseAcc
  | [], acc => some acc
  | none :: rest, acc => browseLoop rest acc
  | some itemPage :: rest, acc =>
    match getReturnDetails itemPage.returnsText with
    | none => none
    | some returnDetails =>
      let postageDetails := getPostageDetails itemPage.postageText
      browseLoop rest
        { totalImageCount := acc.totalImageCount + getItemImageCount itemPage
          totalDescriptionLength :=
            acc.totalDescriptionLength.add (getItemDescriptionLength itemPage)
          allowPostageCount := acc.allowPostageCount + postageDetails.allowsPostage.toNat
          freePostageCount := acc.freePostageCount + postageDetails.isFree.toNat
          acceptReturnsCount := acc.acceptReturnsCount + returnDetails.returnAllowed.toNat
          sellerPaysReturnPostageCount :=
            acc.sellerPaysReturnPostageCount + returnDetails.sellerPays.toNat }

/-- The five statistics fields written at the end of `browseItemDetails`. -/
structure ItemStats where
  averageImageCount : JSNum
  averageDescriptionLength : JSNum
  freePostagePercentage : JSNum
  acceptReturnsPercentage : JSNum
  sellerPaysReturnsPercentage : JSNum
deriving DecidableEq

/-- `browseItemDetails`: drop the honeypot link, set
`activeItems = remaining count` (this assignment happens before the loop,
so it survives even when the loop aborts), then run the loop and compute
the averages and percentages, each guarded by `|| 0`. -/
def browseItemDetails (itemLinks : List (Option ItemPage)) : Nat × Option ItemStats :=
  let links := itemLinks.drop 1
  let activeItems := links.length
  (activeItems,
    (browseLoop links ⟨0, JSNum.num 0, 0, 0, 0, 0⟩).map (fun acc =>
      { averageImageCount :=
          ((JSNum.num acc.totalImageCount).div (JSNum.num activeItems)).or0
        averageDescriptionLength :=
          (acc.totalDescriptionLength.div (JSNum.num activeItems)).or0
        freePostagePercentage :=
          (((JSNum.num acc.freePostageCount).div
              (JSNum.num acc.allowPostageCount)).mul (JSNum.num 100)).or0
        acceptReturnsPercentage :=
          (((JSNum.num acc.acceptReturnsCount).div
              (JSNum.num activeItems)).mul (JSNum.num 100)).or0
        sellerPaysReturnsPercentage :=
          (((JSNum.num acc.sellerPaysReturnPostageCount).div
              (JSNum.num acc.acceptReturnsCount)).mul (JSNum.num 100)).or0 }))

/-- One feedback card: its (pre-trimmed) comment text and the reviewer
identifier, each `none` when the corresponding element is missing. -/
structure FeedbackEntry where
  comment : Option String
  username : Option String
deriving DecidableEq

/-- The `Map` from comment text to the array of users that posted it,
modelled as an insertion-ordered association list. -/
abbrev FeedbackMap := List (String × List (Option String))

/-- `Map.get`. -/
def mapGet : FeedbackMap → String → Option (List (Option String))
  | [], _ => none
  | (k, v) :: rest, c => if k = c then some v else mapGet rest c

/-- `Map.set`: overwrite in place, or append a fresh key at the end. -/
def mapSet : FeedbackMap → String → List (Option String) → FeedbackMap
  | [], k, v => [(k, v)]
  | (k2, v2) :: rest, k, v =>
    if k2 = k then (k, v) :: rest else (k2, v2) :: mapSet rest k v

/-- One task body of `findDuplicateFeedbackPercentage` (the map/counter
update is synchronous, hence atomic per entry).  An absent or empty
comment (`!comment`) is skipped, as is a comment under 15 characters;
otherwise the reviewer is appended to the comment's user list unless
already present, and the duplicate counter is incremented when the list
has grown beyond one user. -/
def processFeedbackEntry (st : Nat × FeedbackMap) (e : FeedbackEntry) : Nat × FeedbackMap :=
  match e.comment with
  | none => st
  | some comment =>
    if comment = "" then st
    else if comment.length < 15 then st
    else
      match mapGet st.2 comment with
      | none => (st.1, mapSet st.2 comment [e.username])
      | some storedComment =>
        if e.username ∈ storedComment then st
        else
          let storedComment2 := storedComment ++ [e.username]
          let m2 := mapSet st.2 comment storedComment2
          if storedComment2.length > 1 then (st.1 + 1, m2) else (st.1, m2)

/-- The counter-and-map state after all feedback tasks have completed, in
list order. -/
def feedbackFold (containers : List FeedbackEntry) : Nat × FeedbackMap :=
  containers.foldl processFeedbackEntry (0, [])

/-- The final `duplicateFeedbackCount` over the post-decoy containers. -/
def duplicateFeedbackCount (containers : List FeedbackEntry) : Nat :=
  (feedbackFold containers).1

/-- `findDuplicateFeedbackPercentage`: shift off the decoy row, run the
per-entry tasks, and return `(duplicateFeedbackCount / containers.length) * 100`
(the length is taken after the shift). -/
def findDuplicateFeedbackPercentage (feedbackContainers : List FeedbackEntry) : JSNum :=
  let containers := feedbackContainers.drop 1
  ((JSNum.num (duplicateFeedbackCount containers)).div
      (JSNum.num containers.length)).mul (JSNum.num 100)

/-- The end-to-end example record of the spec: every factor at (or above)
its ceiling, both negative factors at zero, account 730 days old. -/
def exampleStats : SellerStats :=
  { activeItems := 60, soldItems := 1000, cheapItemsPercentage := 0,
    averageImageCount := 7, averageDescriptionLength := 100,
    acceptReturnsPercentage := 100, sellerPaysReturnsPercentage := 100,
    freePostagePercentage := 100, feedbackCount := 100,
    positiveFeedbackPercentage := 100, duplicateFeedbackPercentage := 0,
    timeSinceCreation := some ⟨0, 0, 0, 730, 0, 0⟩ }

/-- Witness for `rateSeller_skips_absent_creation_date` at a concrete
record with no creation date. -/
def noDateStats : SellerStats :=
  { activeItems := 30, soldItems := 500, cheapItemsPercentage := 40,
    averageImageCount := 3, averageDescriptionLength := 50,
    acceptReturnsPercentage := 50, sellerPaysReturnsPercentage := 50,
    freePostagePercentage := 50, feedbackCount := 50,
    positiveFeedbackPercentage := 50, duplicateFeedbackPercentage := 5,
    timeSinceCreation := none }

/-- A listing page whose description frame/element is missing. -/
def missingDescPage : ItemPage := ⟨3, none, some "Free postage", some "No returns accepted"⟩

/-- A listing page with a 100-character description. -/
def fullDescPage : ItemPage :=
  ⟨5, some 100, none, some "Returns accepted. Seller pays return postage."⟩

/-- A honeypot plus the two pages above. -/
def mixedDescriptionLinks : List (Option ItemPage) :=
  [none, some missingDescPage, some fullDescPage]

/-- The statistics record the code produces on `mixedDescriptionLinks`. -/
def mixedStats : ItemStats :=
  ⟨JSNum.num 4, JSNum.num 0, JSNum.num 100, JSNum.num 50, JSNum.num 100⟩

def consideredComment (e : FeedbackEntry) : Option String :=
  match e.comment with
  | none => none
  | some comment =>
    if comment = "" then none
    else if comment.length < 15 then none
    else some comment

def entryUsernames (l : List FeedbackEntry) (c : String) : List (Option String) :=
  (l.filter (fun e => consideredComment e = some c)).map (fun e => e.username)

def dupFormula (l : List FeedbackEntry) : Nat :=
  ∑ c ∈ (l.filterMap consideredComment).toFinset, ((entryUsernames l c).toFinset.card - 1)

def MapInv (l : List FeedbackEntry) (m : FeedbackMap) : Prop :=
  ∀ c : String,
    (entryUsernames l c = [] → mapGet m c = none) ∧
    (entryUsernames l c ≠ [] →
      ∃ stored, mapGet m c = some stored ∧ stored ≠ [] ∧
        ∀ u, u ∈ stored ↔ u ∈ entryUsernames l c)


/-- A feedback entry used in the permutation witness. -/
def feedbackAlice : FeedbackEntry := ⟨some "Great communication, fast delivery!", some "alice"⟩

/-! ## Theorems -/

/-- A feedback entry used in the permutation witness. -/
def feedbackBob : FeedbackEntry := ⟨some "Great communication, fast delivery!", some "bob"⟩

theorem clamp_le_and_le (x lo hi : Rat) (h : lo ≤ hi) :
    lo ≤ clamp x lo hi ∧ clamp x lo hi ≤ hi := by
  unfold clamp
  split_ifs with h1 h2
  · exact ⟨le_refl lo, h⟩
  · exact ⟨h, le_refl hi⟩
  · exact ⟨le_of_not_lt h1, le_of_not_lt h2⟩

theorem mem_ite_append {α : Type} (a b : α) (l : List α) (c : Prop) [Decidable c] :
    (a ∈ (if c then l ++ [b] else l)) ↔ (a ∈ l ∨ (c ∧ a = b)) := by
  by_cases h : c <;> simp [h]

/-- Claim C1: for every fully populated `SellerStats` record (every field
numeric and `timeSinceCreation` present), the score returned by
`rateSeller` lies in `[0, 100]`: it is
`clamp(positiveScore - negativeScore, 0, 100)`. -/
theorem rateSeller_score_in_bounds (sellerStats : SellerStats) (t : TimeInfo)
    (h : sellerStats.timeSinceCreation = some t) :
    0 ≤ (rateSeller sellerStats).1 ∧ (rateSeller sellerStats).1 ≤ 100 :=
  clamp_le_and_le
    ((rateState sellerStats).totalPositiveWeightedScore /
        (rateState sellerStats).maximumPositiveScore * 100 -
      (rateState sellerStats).totalNegativeWeightedScore /
        (rateState sellerStats).minimumNegativeScore * 100) 0 100 (by norm_num)

/-- Witness for `rateSeller_score_in_bounds` at the concrete
`exampleStats` record. -/
theorem rateSeller_score_in_bounds_witness :
    exampleStats.timeSinceCreation = some ⟨0, 0, 0, 730, 0, 0⟩ ∧
    0 ≤ (rateSeller exampleStats).1 ∧ (rateSeller exampleStats).1 ≤ 100 :=
  ⟨rfl, rateSeller_score_in_bounds exampleStats ⟨0, 0, 0, 730, 0, 0⟩ rfl⟩

/-- Claim C9: on the spec's end-to-end example record, `rateSeller`
returns score `100` and an empty flag list. -/
theorem rateSeller_example_perfect_score :
    rateSeller exampleStats = (100, []) := by
  norm_num [rateSeller, rateState, statsEntries, processFactor, factorValues,
    factorFlags, clamp, initRateState, exampleStats]

/-- Claim C7: with every factor present, a positive-weight factor is
flagged iff its normalized value times 100 is strictly below 20, and a
negative-weight factor is flagged iff its normalized value times 100 is
strictly above 65 — except `duplicateFeedbackPercentage`, whose threshold
is strictly above 10. -/
theorem rateSeller_flag_thresholds (sellerStats : SellerStats) (t : TimeInfo)
    (h : sellerStats.timeSinceCreation = some t) :
    (SellerFlag.LowActiveItems ∈ (rateSeller sellerStats).2 ↔
      sellerStats.activeItems / 60 * 100 < 20) ∧
    (SellerFlag.LowSoldItems ∈ (rateSeller sellerStats).2 ↔
      sellerStats.soldItems / 1000 * 100 < 20) ∧
    (SellerFlag.HighCheapItems ∈ (rateSeller sellerStats).2 ↔
      sellerStats.cheapItemsPercentage / 100 * 100 > 65) ∧
    (SellerFlag.LowImages ∈ (rateSeller sellerStats).2 ↔
      sellerStats.averageImageCount / 7 * 100 < 20) ∧
    (SellerFlag.ShortDescriptions ∈ (rateSeller sellerStats).2 ↔
      sellerStats.averageDescriptionLength / 100 * 100 < 20) ∧
    (SellerFlag.LowReturns ∈ (rateSeller sellerStats).2 ↔
      sellerStats.acceptReturnsPercentage / 100 * 100 < 20) ∧
    (SellerFlag.LowReturnPayment ∈ (rateSeller sellerStats).2 ↔
      sellerStats.sellerPaysReturnsPercentage / 100 * 100 < 20) ∧
    (SellerFlag.LowFreePostage ∈ (rateSeller sellerStats).2 ↔
      sellerStats.freePostagePercentage / 100 * 100 < 20) ∧
    (SellerFlag.LowFeedbackCount ∈ (rateSeller sellerStats).2 ↔
      sellerStats.feedbackCount / 100 * 100 < 20) ∧
    (SellerFlag.PoorFeedback ∈ (rateSeller sellerStats).2 ↔
      sellerStats.positiveFeedbackPercentage / 100 * 100 < 20) ∧
    (SellerFlag.HighDuplicateFeedback ∈ (rateSeller sellerStats).2 ↔
      sellerStats.duplicateFeedbackPercentage / 100 * 100 > 10) ∧
    (SellerFlag.NewAccount ∈ (rateSeller sellerStats).2 ↔
      (t.days : Rat) / (365 * 2) * 100 < 20) := by
  simp only [rateSeller, rateState, statsEntries, h]
  norm_num [processFactor, factorValues, factorFlags, initRateState, mem_ite_append]
  simp only [reduceCtorEq, and_false, or_false, false_or, and_true, true_and, false_and,
    false_implies]
  constructor
  · rintro (h1 | h1)
    · exact h1
    · linarith
  · exact Or.inl

/-- Witness for `rateSeller_flag_thresholds` at the concrete
`exampleStats` record (first and eleventh conjunct instantiated). -/
theorem rateSeller_flag_thresholds_witness :
    exampleStats.timeSinceCreation = some ⟨0, 0, 0, 730, 0, 0⟩ ∧
    (SellerFlag.LowActiveItems ∈ (rateSeller exampleStats).2 ↔
      exampleStats.activeItems / 60 * 100 < 20) ∧
    (SellerFlag.HighDuplicateFeedback ∈ (rateSeller exampleStats).2 ↔
      exampleStats.duplicateFeedbackPercentage / 100 * 100 > 10) :=
  ⟨rfl, (rateSeller_flag_thresholds exampleStats ⟨0, 0, 0, 730, 0, 0⟩ rfl).1,
    (rateSeller_flag_thresholds exampleStats ⟨0, 0, 0, 730, 0, 0⟩ rfl).2.2.2.2.2.2.2.2.2.2.1⟩

/-- Claim C10: when `timeSinceCreation` is absent, `Object.entries` skips
the key entirely: the positive ceiling sum is 58 (not 65), the
`NewAccount` flag is never emitted, and — unlike an account aged 0
days — the factor contributes nothing: a present 0-day duration leaves
the positive weighted sum unchanged but raises the ceiling to 65 and
emits `NewAccount`. -/
theorem rateSeller_skips_absent_creation_date (sellerStats : SellerStats)
    (h : sellerStats.timeSinceCreation = none) (t : TimeInfo) (ht : t.days = 0) :
    (rateState sellerStats).maximumPositiveScore = 58 ∧
    SellerFlag.NewAccount ∉ (rateSeller sellerStats).2 ∧
    (rateState { sellerStats with timeSinceCreation := some t }).totalPositiveWeightedScore
      = (rateState sellerStats).totalPositiveWeightedScore ∧
    (rateState { sellerStats with timeSinceCreation := some t }).maximumPositiveScore = 65 ∧
    SellerFlag.NewAccount ∈ (rateSeller { sellerStats with timeSinceCreation := some t }).2 := by
  simp only [rateSeller, rateState, statsEntries, h, ht]
  norm_num [processFactor, factorValues, factorFlags, initRateState, clamp, mem_ite_append]
  simp only [reduceCtorEq, not_false_eq_true, implies_true, and_self, and_true, true_and]

theorem rateSeller_skips_absent_creation_date_witness :
    (rateState noDateStats).maximumPositiveScore = 58 ∧
    SellerFlag.NewAccount ∉ (rateSeller noDateStats).2 ∧
    (rateState { noDateStats with timeSinceCreation := some ⟨0, 0, 0, 0, 0, 0⟩ }).totalPositiveWeightedScore
      = (rateState noDateStats).totalPositiveWeightedScore ∧
    (rateState { noDateStats with timeSinceCreation := some ⟨0, 0, 0, 0, 0, 0⟩ }).maximumPositiveScore = 65 ∧
    SellerFlag.NewAccount ∈ (rateSeller { noDateStats with timeSinceCreation := some ⟨0, 0, 0, 0, 0, 0⟩ }).2 :=
  rateSeller_skips_absent_creation_date noDateStats rfl ⟨0, 0, 0, 0, 0, 0⟩ rfl

/-- Claim C2 (failing part): with zero priced listings after the honeypot
discard (here: a price collection containing only the honeypot),
`getCheapItemsPercentage` computes `(0 / 0) * 100 = NaN` — not `0` —
because this is the one aggregation without the `|| 0` guard. -/
theorem getCheapItemsPercentage_zero_listings_nan :
    getCheapItemsPercentage [5] = JSNum.nan ∧ JSNum.nan ≠ JSNum.num 0 :=
  ⟨by decide, by decide⟩

/-- Counterexample to claim C4: with the returns element absent the code
returns `{returnAllowed: true, sellerPays: false}` (not all-false as
claimed), and with a returns text that does not start with `"No"` and
contains no `"."` it throws a `TypeError` instead of returning. -/
theorem getReturnDetails_claim_counterexample :
    getReturnDetails none = some ⟨true, false⟩ ∧
    getReturnDetails none ≠ some ⟨false, false⟩ ∧
    getReturnDetails (some "30 day returns") = none :=
  ⟨rfl, by decide, by decide⟩

/-- Claim C4 as amended: `getReturnDetails` yields all-false exactly when
the text starts with `"No"`; an absent element yields
`{returnAllowed: true, sellerPays: false}` (both optional chains
short-circuit); otherwise, if the text has a second `"."`-separated
segment, `returnAllowed = true` and `sellerPays` iff that segment, trimmed,
starts with `"Seller"` — and if it has no second segment, a `TypeError`
is raised (`none`). -/
theorem getReturnDetails_cases (text : String) :
    getReturnDetails none = some ⟨true, false⟩ ∧
    (jsStartsWith text "No" = true → getReturnDetails (some text) = some ⟨false, false⟩) ∧
    (jsStartsWith text "No" = false → ∀ second, (jsSplitDot text)[1]? = some second →
      getReturnDetails (some text) = some ⟨true, jsStartsWith (jsTrim second) "Seller"⟩) ∧
    (jsStartsWith text "No" = false → (jsSplitDot text)[1]? = none →
      getReturnDetails (some text) = none) := by
  refine ⟨rfl, ?_, ?_, ?_⟩
  · intro h1
    simp [getReturnDetails, h1]
  · intro h1 second h2
    simp [getReturnDetails, h1, h2]
  · intro h1 h2
    simp [getReturnDetails, h1, h2]

/-- Witness for `getReturnDetails_cases` on a concrete two-sentence
returns text. -/
theorem getReturnDetails_cases_witness :
    jsStartsWith "Returns accepted. Seller pays return postage." "No" = false ∧
    (jsSplitDot "Returns accepted. Seller pays return postage.")[1]?
      = some " Seller pays return postage" ∧
    getReturnDetails (some "Returns accepted. Seller pays return postage.")
      = some ⟨true, true⟩ := by
  refine ⟨by decide, by decide, ?_⟩
  have h := (getReturnDetails_cases "Returns accepted. Seller pays return postage.").2.2.1
    (by decide) " Seller pays return postage" (by decide)
  exact h.trans (by decide)

/-- Claim C6: the decoy discard. For a listings link collection of size
`N ≥ 1`, `activeItems = N - 1` (the first link is shifted off before
counting); for a feedback collection of size `M ≥ 1`, the denominator of
the duplicate percentage is `M - 1` (the length is taken after the
shift). -/
theorem decoy_discard (itemLinks : List (Option ItemPage)) (entries : List FeedbackEntry)
    (h1 : 1 ≤ itemLinks.length) (h2 : 1 ≤ entries.length) :
    (browseItemDetails itemLinks).1 = itemLinks.length - 1 ∧
    findDuplicateFeedbackPercentage entries =
      ((JSNum.num (duplicateFeedbackCount (entries.drop 1))).div
          (JSNum.num ((entries.length - 1 : Nat)))).mul (JSNum.num 100) := by
  constructor
  · simp [browseItemDetails]
  · simp only [findDuplicateFeedbackPercentage, List.length_drop]

/-- Witness for `decoy_discard` on concrete two-element collections. -/
theorem decoy_discard_witness :
    (browseItemDetails [none,
        some ⟨2, some 10, none, some "No returns accepted"⟩]).1 = 1 ∧
    findDuplicateFeedbackPercentage [⟨some "decoy row", some "d"⟩, ⟨none, none⟩] =
      ((JSNum.num (duplicateFeedbackCount
          ([⟨some "decoy row", some "d"⟩, (⟨none, none⟩ : FeedbackEntry)].drop 1))).div
        (JSNum.num ((2 - 1 : Nat)))).mul (JSNum.num 100) :=
  decoy_discard [none, some ⟨2, some 10, none, some "No returns accepted"⟩]
    [⟨some "decoy row", some "d"⟩, ⟨none, none⟩] (by decide) (by decide)

theorem JSNum.add_nan (x : JSNum) : x.add JSNum.nan = JSNum.nan := by
  cases x <;> rfl

theorem JSNum.nan_add (x : JSNum) : JSNum.nan.add x = JSNum.nan := by
  cases x <;> rfl

theorem JSNum.nan_div (x : JSNum) : JSNum.nan.div x = JSNum.nan := by
  cases x <;> rfl

/-- Once the running description total is `NaN`, it stays `NaN` through the
rest of the loop. -/
theorem browseLoop_preserves_nan (links : List (Option ItemPage)) :
    ∀ acc acc', browseLoop links acc = some acc' →
      acc.totalDescriptionLength = JSNum.nan →
      acc'.totalDescriptionLength = JSNum.nan := by
  induction links with
  | nil =>
    intro acc acc' h hd
    simp only [browseLoop] at h
    cases h
    exact hd
  | cons hd rest ih =>
    intro acc acc' h hnan
    cases hd with
    | none =>
      exact ih acc acc' h hnan
    | some pg =>
      simp only [browseLoop] at h
      cases hr : getReturnDetails pg.returnsText with
      | none => rw [hr] at h; exact absurd h (by simp)
      | some rd =>
        rw [hr] at h
        refine ih _ acc' h ?_
        simp [hnan, JSNum.nan_add]

/-- If any successfully navigated listing in the loop has a missing
description, the final description total is `NaN`. -/
theorem browseLoop_nan_of_missing_description (links : List (Option ItemPage)) :
    ∀ acc acc' pg, browseLoop links acc = some acc' →
      some pg ∈ links → pg.descriptionLength = none →
      acc'.totalDescriptionLength = JSNum.nan := by
  induction links with
  | nil =>
    intro acc acc' pg _ hmem _
    exact absurd hmem (List.not_mem_nil _)
  | cons hd rest ih =>
    intro acc acc' pg h hmem hdesc
    rcases List.mem_cons.1 hmem with heq | hmem2
    · subst heq
      simp only [browseLoop] at h
      cases hr : getReturnDetails pg.returnsText with
      | none => rw [hr] at h; exact absurd h (by simp)
      | some rd =>
        rw [hr] at h
        refine browseLoop_preserves_nan rest _ acc' h ?_
        simp [getItemDescriptionLength, hdesc, JSNum.add_nan]
    · cases hd with
      | none => exact ih acc acc' pg h hmem2 hdesc
      | some pg2 =>
        simp only [browseLoop] at h
        cases hr : getReturnDetails pg2.returnsText with
        | none => rw [hr] at h; exact absurd h (by simp)
        | some rd =>
          rw [hr] at h
          exact ih _ acc' pg h hmem2 hdesc

/-- Counterexample to claim C5: with one of two sampled items missing its
description and the other 100 characters long, the claim predicts
`averageDescriptionLength = (0 + 100) / 2 = 50`, but the code produces `0`:
the `undefined` length turns the sum into `NaN`, and the trailing `|| 0`
discards the other item's contribution entirely. -/
theorem missing_description_claim_counterexample :
    ((browseItemDetails mixedDescriptionLinks).2.map ItemStats.averageDescriptionLength)
      = some (JSNum.num 0) ∧ JSNum.num 0 ≠ JSNum.num ((0 + 100) / 2) :=
  ⟨by decide, by norm_num⟩

/-- Claim C5 as amended: whenever any sampled (successfully navigated)
item's description frame or element is missing, no error is raised, but
`averageDescriptionLength` is `0` regardless of every other item's
description length: the missing length makes the sum `NaN` and the `|| 0`
guard collapses it to `0`. -/
theorem missing_description_zeroes_average (itemLinks : List (Option ItemPage))
    (stats : ItemStats) (pg : ItemPage)
    (hmem : some pg ∈ itemLinks.drop 1) (hdesc : pg.descriptionLength = none)
    (hres : (browseItemDetails itemLinks).2 = some stats) :
    stats.averageDescriptionLength = JSNum.num 0 := by
  simp only [browseItemDetails, Option.map_eq_some'] at hres
  obtain ⟨acc, hloop, hstats⟩ := hres
  have hnan := browseLoop_nan_of_missing_description (itemLinks.drop 1) _ acc pg hloop hmem hdesc
  subst hstats
  simp [hnan, JSNum.nan_div, JSNum.or0]

/-- Witness for `missing_description_zeroes_average` at the concrete
`mixedDescriptionLinks` input. -/
theorem missing_description_zeroes_average_witness :
    some missingDescPage ∈ mixedDescriptionLinks.drop 1 ∧
    missingDescPage.descriptionLength = none ∧
    (browseItemDetails mixedDescriptionLinks).2 = some mixedStats ∧
    mixedStats.averageDescriptionLength = JSNum.num 0 := by
  have hres : (browseItemDetails mixedDescriptionLinks).2 = some mixedStats := by
    have hr1 : getReturnDetails (some "No returns accepted") = some ⟨false, false⟩ := by decide
    have hr2 : getReturnDetails (some "Returns accepted. Seller pays return postage.")
        = some ⟨true, true⟩ := by decide
    have hp1 : getPostageDetails (some "Free postage") = ⟨true, true⟩ := by decide
    have hp2 : getPostageDetails none = ⟨false, false⟩ := rfl
    simp only [browseItemDetails, browseLoop, mixedDescriptionLinks, missingDescPage,
      fullDescPage, hr1, hr2, hp1, hp2, getItemDescriptionLength, getItemImageCount]
    norm_num [JSNum.add, JSNum.div, JSNum.or0, JSNum.mul, mixedStats]
  exact ⟨by decide, rfl, hres,
    missing_description_zeroes_average mixedDescriptionLinks mixedStats missingDescPage
      (by decide) rfl hres⟩

theorem consideredComment_eq_some_iff (e : FeedbackEntry) (c : String) :
    consideredComment e = some c ↔ e.comment = some c ∧ c ≠ "" ∧ 15 ≤ c.length := by
  cases he : e.comment with
  | none => simp [consideredComment, he]
  | some s =>
    simp only [consideredComment, he, Option.some.injEq]
    split_ifs with h1 h2
    · constructor
      · rintro ⟨⟩
      · rintro ⟨rfl, hne, _⟩
        exact absurd h1 hne
    · constructor
      · rintro ⟨⟩
      · rintro ⟨rfl, _, hlen⟩
        omega
    · rw [Option.some.injEq]
      constructor
      · rintro rfl
        exact ⟨rfl, h1, by omega⟩
      · rintro ⟨hc, _, _⟩
        exact hc

theorem mapGet_mapSet_self (m : FeedbackMap) (k : String) (v : List (Option String)) :
    mapGet (mapSet m k v) k = some v := by
  induction m with
  | nil => simp [mapGet, mapSet]
  | cons kv rest ih =>
    obtain ⟨k2, v2⟩ := kv
    by_cases h : k2 = k
    · simp [mapSet, mapGet, h]
    · simp [mapSet, mapGet, h, ih]

theorem mapGet_mapSet_ne (m : FeedbackMap) (k c : String) (v : List (Option String))
    (h : c ≠ k) : mapGet (mapSet m k v) c = mapGet m c := by
  induction m with
  | nil => simp [mapGet, mapSet, Ne.symm h]
  | cons kv rest ih =>
    obtain ⟨k2, v2⟩ := kv
    by_cases h2 : k2 = k
    · subst h2
      simp [mapSet, mapGet, Ne.symm h]
    · by_cases h3 : k2 = c
      · simp [mapSet, mapGet, h2, h3, h]
      · simp [mapSet, mapGet, h2, h3, ih]

theorem entryUsernames_append_single (l : List FeedbackEntry) (e : FeedbackEntry) (c : String) :
    entryUsernames (l ++ [e]) c =
      entryUsernames l c ++ (if consideredComment e = some c then [e.username] else []) := by
  simp only [entryUsernames, List.filter_append, List.map_append]
  by_cases h : consideredComment e = some c <;> simp [h]

theorem entryUsernames_eq_nil_iff (l : List FeedbackEntry) (c : String) :
    entryUsernames l c = [] ↔ ∀ e ∈ l, consideredComment e ≠ some c := by
  simp [entryUsernames, List.filter_eq_nil_iff]

theorem mem_comments_iff_usernames_ne_nil (l : List FeedbackEntry) (c : String) :
    c ∈ (l.filterMap consideredComment).toFinset ↔ entryUsernames l c ≠ [] := by
  rw [List.mem_toFinset, List.mem_filterMap]
  constructor
  · rintro ⟨e, he, hc⟩ hnil
    exact (entryUsernames_eq_nil_iff l c).1 hnil e he hc
  · intro hne
    by_contra hno
    push_neg at hno
    exact hne ((entryUsernames_eq_nil_iff l c).2 hno)

theorem processFeedbackEntry_skip (st : Nat × FeedbackMap) (e : FeedbackEntry)
    (hc : consideredComment e = none) : processFeedbackEntry st e = st := by
  cases he : e.comment with
  | none => simp [processFeedbackEntry, he]
  | some s =>
    simp only [consideredComment, he] at hc
    simp only [processFeedbackEntry, he]
    split_ifs with h1 h2
    · rfl
    · rfl
    · rw [if_neg h1, if_neg h2] at hc
      exact absurd hc (by simp)

theorem processFeedbackEntry_newComment (st : Nat × FeedbackMap) (e : FeedbackEntry)
    (c : String) (hc : consideredComment e = some c) (hg : mapGet st.2 c = none) :
    processFeedbackEntry st e = (st.1, mapSet st.2 c [e.username]) := by
  obtain ⟨he, hne, hlen⟩ := (consideredComment_eq_some_iff e c).1 hc
  simp [processFeedbackEntry, he, hne, Nat.not_lt.mpr hlen, hg]

theorem processFeedbackEntry_oldUser (st : Nat × FeedbackMap) (e : FeedbackEntry)
    (c : String) (stored : List (Option String))
    (hc : consideredComment e = some c) (hg : mapGet st.2 c = some stored)
    (hu : e.username ∈ stored) : processFeedbackEntry st e = st := by
  obtain ⟨he, hne, hlen⟩ := (consideredComment_eq_some_iff e c).1 hc
  simp [processFeedbackEntry, he, hne, Nat.not_lt.mpr hlen, hg, hu]

theorem processFeedbackEntry_newUser (st : Nat × FeedbackMap) (e : FeedbackEntry)
    (c : String) (stored : List (Option String))
    (hc : consideredComment e = some c) (hg : mapGet st.2 c = some stored)
    (hu : e.username ∉ stored) (hne2 : stored ≠ []) :
    processFeedbackEntry st e = (st.1 + 1, mapSet st.2 c (stored ++ [e.username])) := by
  obtain ⟨he, hne, hlen⟩ := (consideredComment_eq_some_iff e c).1 hc
  have hlen2 : (stored ++ [e.username]).length > 1 := by
    have := List.length_pos.2 hne2
    simp only [List.length_append, List.length_cons, List.length_nil]
    omega
  simp [processFeedbackEntry, he, hne, Nat.not_lt.mpr hlen, hg, hu, hlen2, hne2]

theorem entryUsernames_append_some (l : List FeedbackEntry) (e : FeedbackEntry)
    (c0 : String) (hc : consideredComment e = some c0) (c : String) :
    entryUsernames (l ++ [e]) c =
      entryUsernames l c ++ (if c0 = c then [e.username] else []) := by
  rw [entryUsernames_append_single]
  simp [hc]

theorem comments_append_skip (l : List FeedbackEntry) (e : FeedbackEntry)
    (hc : consideredComment e = none) :
    (l ++ [e]).filterMap consideredComment = l.filterMap consideredComment := by
  simp [List.filterMap_append, hc]

theorem comments_append_some (l : List FeedbackEntry) (e : FeedbackEntry)
    (c0 : String) (hc : consideredComment e = some c0) :
    (l ++ [e]).filterMap consideredComment = l.filterMap consideredComment ++ [c0] := by
  simp [List.filterMap_append, hc]

theorem dupFormula_append_skip (l : List FeedbackEntry) (e : FeedbackEntry)
    (hc : consideredComment e = none) :
    dupFormula (l ++ [e]) = dupFormula l := by
  unfold dupFormula
  rw [comments_append_skip l e hc]
  refine Finset.sum_congr rfl (fun c _ => ?_)
  rw [entryUsernames_append_single]
  simp [hc]

theorem dupFormula_append_newComment (l : List FeedbackEntry) (e : FeedbackEntry)
    (c0 : String) (hc : consideredComment e = some c0)
    (h0 : entryUsernames l c0 = []) :
    dupFormula (l ++ [e]) = dupFormula l := by
  unfold dupFormula
  rw [comments_append_some l e c0 hc, List.toFinset_append]
  have hnotmem : c0 ∉ (l.filterMap consideredComment).toFinset := by
    rw [mem_comments_iff_usernames_ne_nil]
    simp [h0]
  have hunion : (l.filterMap consideredComment).toFinset ∪ ([c0].toFinset)
      = insert c0 ((l.filterMap consideredComment).toFinset) := by
    simp [Finset.union_comm, Finset.insert_eq]
  rw [hunion, Finset.sum_insert hnotmem]
  have hfc : (entryUsernames (l ++ [e]) c0).toFinset.card - 1 = 0 := by
    rw [entryUsernames_append_some l e c0 hc]
    simp [h0]
  rw [hfc, Nat.zero_add]
  refine Finset.sum_congr rfl (fun c hcT => ?_)
  have hne : c0 ≠ c := fun h => hnotmem (h ▸ hcT)
  rw [entryUsernames_append_some l e c0 hc]
  simp [hne]

theorem dupFormula_append_oldUser (l : List FeedbackEntry) (e : FeedbackEntry)
    (c0 : String) (hc : consideredComment e = some c0)
    (hu : e.username ∈ entryUsernames l c0) :
    dupFormula (l ++ [e]) = dupFormula l := by
  unfold dupFormula
  have hmemT : c0 ∈ (l.filterMap consideredComment).toFinset := by
    rw [mem_comments_iff_usernames_ne_nil]
    intro h0
    rw [h0] at hu
    exact absurd hu (List.not_mem_nil _)
  rw [comments_append_some l e c0 hc, List.toFinset_append]
  have hunion : (l.filterMap consideredComment).toFinset ∪ ([c0].toFinset)
      = (l.filterMap consideredComment).toFinset := by
    simp [Finset.union_eq_left, Finset.singleton_subset_iff, hmemT]
  rw [hunion]
  refine Finset.sum_congr rfl (fun c hcT => ?_)
  by_cases hcc : c0 = c
  · subst hcc
    rw [entryUsernames_append_some l e c0 hc]
    have hu2 : e.username ∈ (entryUsernames l c0).toFinset := List.mem_toFinset.2 hu
    simp only [if_true, List.toFinset_append, List.toFinset_cons, List.toFinset_nil,
      Finset.insert_empty]
    rw [Finset.union_eq_left.mpr (Finset.singleton_subset_iff.mpr hu2)]
  · rw [entryUsernames_append_some l e c0 hc]
    simp [hcc]

theorem dupFormula_append_newUser (l : List FeedbackEntry) (e : FeedbackEntry)
    (c0 : String) (hc : consideredComment e = some c0)
    (h0 : entryUsernames l c0 ≠ []) (hu : e.username ∉ entryUsernames l c0) :
    dupFormula (l ++ [e]) = dupFormula l + 1 := by
  unfold dupFormula
  have hmemT : c0 ∈ (l.filterMap consideredComment).toFinset :=
    (mem_comments_iff_usernames_ne_nil l c0).2 h0
  rw [comments_append_some l e c0 hc, List.toFinset_append]
  have hunion : (l.filterMap consideredComment).toFinset ∪ ([c0].toFinset)
      = (l.filterMap consideredComment).toFinset := by
    simp [Finset.union_eq_left, Finset.singleton_subset_iff, hmemT]
  rw [hunion]
  rw [← Finset.sum_erase_add _ _ hmemT, ← Finset.sum_erase_add
    ((l.filterMap consideredComment).toFinset)
    (fun c => (entryUsernames l c).toFinset.card - 1) hmemT]
  have hsums : ∑ c ∈ ((l.filterMap consideredComment).toFinset).erase c0,
      ((entryUsernames (l ++ [e]) c).toFinset.card - 1)
      = ∑ c ∈ ((l.filterMap consideredComment).toFinset).erase c0,
      ((entryUsernames l c).toFinset.card - 1) := by
    refine Finset.sum_congr rfl (fun c hcT => ?_)
    have hne : c0 ≠ c := fun h => (Finset.ne_of_mem_erase hcT) h.symm
    rw [entryUsernames_append_some l e c0 hc]
    simp [hne]
  rw [hsums]
  have hcard : (entryUsernames (l ++ [e]) c0).toFinset.card
      = (entryUsernames l c0).toFinset.card + 1 := by
    rw [entryUsernames_append_some l e c0 hc]
    have hu2 : e.username ∉ (entryUsernames l c0).toFinset := fun h =>
      hu (List.mem_toFinset.1 h)
    simp only [if_true, List.toFinset_append, List.toFinset_cons, List.toFinset_nil,
      Finset.insert_empty]
    rw [Finset.union_comm, ← Finset.insert_eq]
    exact Finset.card_insert_of_not_mem hu2
  have hpos : 1 ≤ (entryUsernames l c0).toFinset.card := by
    cases husers : entryUsernames l c0 with
    | nil => exact absurd husers h0
    | cons a t =>
      have ha : a ∈ (a :: t).toFinset := by simp
      exact Finset.card_pos.2 ⟨a, ha⟩
  rw [hcard]
  omega

theorem feedbackFold_spec (l : List FeedbackEntry) :
    (feedbackFold l).1 = dupFormula l ∧ MapInv l (feedbackFold l).2 := by
  induction l using List.reverseRecOn with
  | nil =>
    refine ⟨by simp [feedbackFold, dupFormula], ?_⟩
    intro c
    refine ⟨fun _ => rfl, fun h => absurd ?_ h⟩
    simp [entryUsernames]
  | append_singleton l e ih =>
    obtain ⟨hn, hm⟩ := ih
    have hfold : feedbackFold (l ++ [e]) = processFeedbackEntry (feedbackFold l) e := by
      simp [feedbackFold, List.foldl_append]
    cases hc : consideredComment e with
    | none =>
      rw [hfold, processFeedbackEntry_skip _ _ hc]
      refine ⟨by rw [hn, dupFormula_append_skip l e hc], ?_⟩
      intro c
      have husersc : entryUsernames (l ++ [e]) c = entryUsernames l c := by
        rw [entryUsernames_append_single]
        simp [hc]
      rw [husersc]
      exact hm c
    | some c0 =>
      have husers := entryUsernames_append_some l e c0 hc
      by_cases h0 : entryUsernames l c0 = []
      · have hg : mapGet (feedbackFold l).2 c0 = none := (hm c0).1 h0
        rw [hfold, processFeedbackEntry_newComment _ _ c0 hc hg]
        constructor
        · rw [dupFormula_append_newComment l e c0 hc h0]
          exact hn
        · intro c
          by_cases hcc : c = c0
          · subst hcc
            constructor
            · intro hnil
              rw [husers c, h0] at hnil
              simp at hnil
            · intro _
              refine ⟨[e.username], mapGet_mapSet_self _ _ _, by simp, fun u => ?_⟩
              rw [husers c, h0]
              simp
          · have hccs : ¬(c0 = c) := fun h => hcc h.symm
            have husersc : entryUsernames (l ++ [e]) c = entryUsernames l c := by
              rw [husers c]
              simp [hccs]
            rw [husersc]
            constructor
            · intro hnil
              rw [mapGet_mapSet_ne _ _ _ _ hcc]
              exact (hm c).1 hnil
            · intro hne
              obtain ⟨st, hst, hstne, hiff⟩ := (hm c).2 hne
              exact ⟨st, by rw [mapGet_mapSet_ne _ _ _ _ hcc]; exact hst, hstne, hiff⟩
      · obtain ⟨stored, hg, hstne, hiff⟩ := (hm c0).2 h0
        by_cases hu : e.username ∈ stored
        · rw [hfold, processFeedbackEntry_oldUser _ _ c0 stored hc hg hu]
          constructor
          · rw [dupFormula_append_oldUser l e c0 hc ((hiff e.username).1 hu)]
            exact hn
          · intro c
            by_cases hcc : c = c0
            · subst hcc
              constructor
              · intro hnil
                rw [husers c] at hnil
                simp at hnil
              · intro _
                refine ⟨stored, hg, hstne, fun u => ?_⟩
                rw [husers c]
                simp only [if_pos rfl, if_true, List.mem_append, List.mem_singleton]
                constructor
                · intro h2
                  exact Or.inl ((hiff u).1 h2)
                · rintro (h2 | rfl)
                  · exact (hiff u).2 h2
                  · exact hu
            · have hccs : ¬(c0 = c) := fun h => hcc h.symm
              have husersc : entryUsernames (l ++ [e]) c = entryUsernames l c := by
                rw [husers c]
                simp [hccs]
              rw [husersc]
              exact hm c
        · have hu2 : e.username ∉ entryUsernames l c0 := fun h => hu ((hiff e.username).2 h)
          rw [hfold, processFeedbackEntry_newUser _ _ c0 stored hc hg hu hstne]
          constructor
          · rw [dupFormula_append_newUser l e c0 hc h0 hu2, hn]
          · intro c
            by_cases hcc : c = c0
            · subst hcc
              constructor
              · intro hnil
                rw [husers c] at hnil
                simp at hnil
              · intro _
                refine ⟨stored ++ [e.username], mapGet_mapSet_self _ _ _, by simp, fun u => ?_⟩
                rw [husers c]
                simp only [if_pos rfl, if_true, List.mem_append, List.mem_singleton]
                constructor
                · rintro (h2 | rfl)
                  · exact Or.inl ((hiff u).1 h2)
                  · exact Or.inr rfl
                · rintro (h2 | rfl)
                  · exact Or.inl ((hiff u).2 h2)
                  · exact Or.inr rfl
            · have hccs : ¬(c0 = c) := fun h => hcc h.symm
              have husersc : entryUsernames (l ++ [e]) c = entryUsernames l c := by
                rw [husers c]
                simp [hccs]
              rw [husersc]
              constructor
              · intro hnil
                rw [mapGet_mapSet_ne _ _ _ _ hcc]
                exact (hm c).1 hnil
              · intro hne
                obtain ⟨st, hst, hstne2, hiff2⟩ := (hm c).2 hne
                exact ⟨st, by rw [mapGet_mapSet_ne _ _ _ _ hcc]; exact hst, hstne2, hiff2⟩

theorem dupFormula_perm {l1 l2 : List FeedbackEntry} (hp : l1.Perm l2) :
    dupFormula l1 = dupFormula l2 := by
  unfold dupFormula
  have hT : (l1.filterMap consideredComment).toFinset
      = (l2.filterMap consideredComment).toFinset :=
    List.toFinset_eq_of_perm _ _ (hp.filterMap _)
  rw [hT]
  refine Finset.sum_congr rfl (fun c _ => ?_)
  have husers : (entryUsernames l1 c).toFinset = (entryUsernames l2 c).toFinset :=
    List.toFinset_eq_of_perm _ _ ((hp.filter _).map _)
  rw [husers]

theorem duplicateFeedbackCount_formula (containers : List FeedbackEntry) :
    duplicateFeedbackCount containers = dupFormula containers :=
  (feedbackFold_spec containers).1

/-- Counterexample to claim C3 as stated: one comment text (27
characters) posted by three distinct reviewers contributes 2 to the
duplicate count, not at most 1 — the counter increments on every new
distinct reviewer after the first, because the pushed list always has
length above one. -/
theorem duplicate_count_exceeds_one_per_comment :
    1 < duplicateFeedbackCount
      [⟨some "Great seller, thanks a lot!", some "u1"⟩,
       ⟨some "Great seller, thanks a lot!", some "u2"⟩,
       ⟨some "Great seller, thanks a lot!", some "u3"⟩] := by decide

/-- Claim C3 as amended: a comment text of at least 15 characters
contributes exactly (number of distinct reviewers posting it) minus one
to the duplicate count: the count increments each time a new distinct
reviewer beyond the first is seen for an already-recorded comment, and a
repeat from an already-counted reviewer never increments; missing, empty
or under-15-character comments never count. -/
theorem duplicateFeedbackCount_per_distinct_reviewer (containers : List FeedbackEntry) :
    duplicateFeedbackCount containers = dupFormula containers :=
  duplicateFeedbackCount_formula containers

/-- Claim C8: the duplicate-feedback result is invariant under every
permutation of the entries processed after the decoy discard — any two
completion orders of the same multiset of (comment, reviewer) pairs give
the same percentage. -/
theorem findDuplicateFeedbackPercentage_perm_invariant (decoy : FeedbackEntry)
    (c1 c2 : List FeedbackEntry) (hp : c1.Perm c2) :
    findDuplicateFeedbackPercentage (decoy :: c1)
      = findDuplicateFeedbackPercentage (decoy :: c2) := by
  have hcount : duplicateFeedbackCount c1 = duplicateFeedbackCount c2 := by
    rw [duplicateFeedbackCount_formula c1, duplicateFeedbackCount_formula c2]
    exact dupFormula_perm hp
  simp only [findDuplicateFeedbackPercentage, List.drop_succ_cons, List.drop_zero]
  rw [hcount, hp.length_eq]

/-- Witness for `findDuplicateFeedbackPercentage_perm_invariant` at a
concrete two-entry swap. -/
theorem findDuplicateFeedbackPercentage_perm_invariant_witness :
    [feedbackAlice, feedbackBob].Perm [feedbackBob, feedbackAlice] ∧
    findDuplicateFeedbackPercentage [⟨some "decoy entry", some "d"⟩, feedbackAlice, feedbackBob]
      = findDuplicateFeedbackPercentage
          [⟨some "decoy entry", some "d"⟩, feedbackBob, feedbackAlice] :=
  ⟨List.Perm.swap feedbackBob feedbackAlice [],
    findDuplicateFeedbackPercentage_perm_invariant ⟨some "decoy entry", some "d"⟩
      [feedbackAlice, feedbackBob] [feedbackBob, feedbackAlice]
      (List.Perm.swap feedbackBob feedbackAlice [])⟩

